import Mathlib

/-!
Verification of `vsync.py`: a utility that relays display VSync events to a
serial-connected emitter.  The program merges command-line and JSON-config
settings, opens a serial port, loads a native wait-for-vsync function, and runs
a relay loop that debounces accepted edges and writes a single marker byte per
accepted trigger.

The embedding below mirrors the source file:
  * `PyVal` / `Config` model Python values and the loaded JSON config dict;
  * `resolve_option` mirrors `_resolve_option` (lines 43-56);
  * `pyOr` models the Python `or` fall-through used at lines 114-116;
  * `mainStartup` mirrors the startup portion of `main` (lines 102-126),
    parameterised by a `World` describing whether the serial open, the DLL
    load and the symbol lookup succeed;
  * `loopStep` / `loop` / `warmupRun` / `relayBody` / `relayRun` mirror the
    relay loop (lines 128-145), driven by a finite trace of wait-primitive
    outcomes (a returned status together with the clock reading taken after
    it, an interrupt, or an unclassified error).
Clock readings and thresholds are modelled as rationals.
-/

namespace VSync

/-- A (non-`None`) Python value appearing in the configuration: a string or a
number.  Python `None` is modelled as `Option.none` around this type. -/
inductive PyVal where
  | pstr (s : String)
  | pnum (q : ℚ)
  deriving DecidableEq, Repr

/-- The loaded JSON config: a key/value map.  A key bound to JSON `null`
is present with value `Option.none` (Python `None`). -/
abbrev Config := List (String × Option PyVal)

/-- The error message raised by `_resolve_option` for a missing required key
(line 55 of the source). -/
def requiredMsg (key : String) : String :=
  "Option \x27" ++ key ++ "\x27 is required; supply it on the command line or config file"

/-- Mirrors `_resolve_option` (lines 43-56): the CLI value wins when it is not
`None`; otherwise the config value is returned whenever the key is present
(even if bound to `null`); otherwise a required key raises `ValueError` and an
optional one yields `None`. -/
def resolve_option (cli_value : Option PyVal) (config : Config) (key : String)
    (required : Bool) : Except String (Option PyVal) :=
  match cli_value with
  | some v => Except.ok (some v)
  | none =>
    match config.lookup key with
    | some v => Except.ok v
    | none =>
      if required then Except.error (requiredMsg key)
      else Except.ok none

/-- Python truthiness for the values that can reach the `or` fall-throughs at
lines 114-116: `None`, `0`, `0.0` and the empty string are falsy. -/
def truthy : Option PyVal → Bool
  | none => false
  | some (PyVal.pstr s) => !s.isEmpty
  | some (PyVal.pnum q) => decide (q ≠ 0)

/-- Models the Python expression `x or d`: `d` when `x` is falsy. -/
def pyOr (x : Option PyVal) (d : PyVal) : PyVal :=
  match x with
  | some v => if truthy (some v) then v else d
  | none => d

/-- A `_resolve_option` call with `required = False` never raises; this
extracts its value (used for `baudrate`, `pulse_threshold`, `warmup`). -/
def resolvedOrNone (cli_value : Option PyVal) (config : Config) (key : String) :
    Option PyVal :=
  match resolve_option cli_value config key false with
  | Except.ok v => v
  | Except.error _ => none

/-- Line 114: `baudrate = _resolve_option(args.baudrate, config, "baudrate") or 921_600`. -/
def mergedBaudrate (cli_value : Option PyVal) (config : Config) : PyVal :=
  pyOr (resolvedOrNone cli_value config "baudrate") (PyVal.pnum 921600)

/-- Line 115: `pulse_threshold = _resolve_option(...) or 0.0005`
(`0.0005 = 1/2000`). -/
def mergedPulseThreshold (cli_value : Option PyVal) (config : Config) : PyVal :=
  pyOr (resolvedOrNone cli_value config "pulse_threshold") (PyVal.pnum (1 / 2000))

/-- Line 116 before the `int(...)` conversion: `_resolve_option(...) or 0`. -/
def mergedWarmup (cli_value : Option PyVal) (config : Config) : PyVal :=
  pyOr (resolvedOrNone cli_value config "warmup") (PyVal.pnum 0)

/-- Models Python `int(x)` for the values reaching line 116: truncation toward
zero for a number, digit parsing for a string; `none` models the raised
`TypeError` / `ValueError` on anything unconvertible. -/
def pyInt : PyVal → Option Int
  | PyVal.pnum q => some (Int.tdiv q.num (q.den : Int))
  | PyVal.pstr s => s.toInt?

/-- The parsed command line (`_build_parser`, lines 59-84): every option
defaults to `None`; `--baudrate` and `--warmup` are parsed as integers and
`--pulse-threshold` as a float. -/
structure Args where
  port : Option String
  dll : Option String
  baudrate : Option Int
  pulse_threshold : Option ℚ
  warmup : Option Int
  deriving DecidableEq, Repr

/-- The command line with every option omitted. -/
def Args.empty : Args := ⟨none, none, none, none, none⟩

/-- Observable side effects of a run. -/
inductive Event where
  | attemptOpenSerial
  | attemptLoadDll
  | write (b : Nat)
  | logInfo (msg : String)
  | closeSerial
  deriving DecidableEq, Repr

/-- The environment's answers to the resource acquisitions of lines 121-124:
`none` means success, `some cause` carries the message of the raised
exception. -/
structure World where
  serialFail : Option String
  dllLoadFail : Option String
  symbolFail : Option String
  deriving DecidableEq, Repr

/-- How the startup portion of `main` (lines 102-126) ends. -/
inductive StartOutcome where
  /-- Line 112, `parser.error`: usage message, exit code 2. -/
  | usageError (msg : String)
  /-- Line 98, a `SystemExit` raised with a message in `_open_serial`: exit code 1. -/
  | fatalExit (msg : String)
  /-- An uncaught exception propagates (traceback, exit code 1); the payload is
  the message of the underlying exception, exactly as raised. -/
  | crash (msg : String)
  /-- Startup completed; the relay loop would begin with these settings. -/
  | started (port : Option PyVal) (baudrate : PyVal) (pulse_threshold : PyVal)
      (warmup : Int) (dllPath : String)
  deriving DecidableEq, Repr

/-- The process exit status implied by a startup outcome (`none` when the
program is still running). -/
def startExitCode : StartOutcome → Option Nat
  | StartOutcome.usageError _ => some 2
  | StartOutcome.fatalExit _ => some 1
  | StartOutcome.crash _ => some 1
  | StartOutcome.started _ _ _ _ _ => none

/-- The message of `_open_serial`'s `SystemExit` (line 98); the port value is
interpolated with Python `str`, so a `None` port prints as `None`. -/
def serialFailMsg (port : Option PyVal) (cause : String) : String :=
  "Failed to open serial port \x27" ++
    (match port with
     | none => "None"
     | some (PyVal.pstr s) => s
     | some (PyVal.pnum q) => toString q) ++ "\x27: " ++ cause

/-- Mirrors the startup portion of `main` (lines 102-126): resolve `port` and
`dll` (required; `ValueError` is turned into `parser.error`), convert the dll
value with `Path(...)` (raising `TypeError` on `None` or a number), apply the
`or`-defaults for `baudrate`, `pulse_threshold` and `warmup`, convert `warmup`
with `int(...)`, then open the serial port (line 121) and load the DLL and its
symbol (line 124).  The event list records which acquisitions were attempted. -/
def mainStartup (args : Args) (config : Config) (w : World) :
    List Event × StartOutcome :=
  match resolve_option (args.port.map PyVal.pstr) config "port" true with
  | Except.error msg => ([], StartOutcome.usageError msg)
  | Except.ok port =>
    match resolve_option (args.dll.map PyVal.pstr) config "dll" true with
    | Except.error msg => ([], StartOutcome.usageError msg)
    | Except.ok dllv =>
      match dllv with
      | none =>
        ([], StartOutcome.crash "TypeError: expected str, bytes or os.PathLike object, not NoneType")
      | some (PyVal.pnum _) =>
        ([], StartOutcome.crash "TypeError: expected str, bytes or os.PathLike object, not int")
      | some (PyVal.pstr dllPath) =>
        let baudrate := mergedBaudrate (args.baudrate.map (fun n => PyVal.pnum n)) config
        let pulse_threshold :=
          mergedPulseThreshold (args.pulse_threshold.map PyVal.pnum) config
        let warmupVal := mergedWarmup (args.warmup.map (fun n => PyVal.pnum n)) config
        match pyInt warmupVal with
        | none => ([], StartOutcome.crash "ValueError: invalid literal for int()")
        | some warmup =>
          match w.serialFail with
          | some cause =>
            ([Event.attemptOpenSerial], StartOutcome.fatalExit (serialFailMsg port cause))
          | none =>
            match w.dllLoadFail with
            | some cause =>
              ([Event.attemptOpenSerial, Event.attemptLoadDll], StartOutcome.crash cause)
            | none =>
              match w.symbolFail with
              | some cause =>
                ([Event.attemptOpenSerial, Event.attemptLoadDll], StartOutcome.crash cause)
              | none =>
                ([Event.attemptOpenSerial, Event.attemptLoadDll],
                  StartOutcome.started port baudrate pulse_threshold warmup dllPath)

/-- One observed outcome of a call to the wait primitive inside the relay
loop: a returned status paired with the clock reading `now` that the loop
would take right after it (line 136), a `KeyboardInterrupt`, or an
unclassified exception. -/
inductive LoopInput where
  | sig (status : Int) (now : ℚ)
  | interrupt
  | err (msg : String)
  deriving DecidableEq, Repr

/-- Whether a loop input is a plain return of the wait primitive. -/
def LoopInput.isSig : LoopInput → Bool
  | LoopInput.sig _ _ => true
  | _ => false

/-- How a (finite prefix of a) run of the `try` body of lines 128-140 ends:
the trace was exhausted with the loop still running, a `KeyboardInterrupt`
was raised, or some other exception was raised. -/
inductive RunExit where
  | pending
  | interrupted
  | errored (msg : String)
  deriving DecidableEq, Repr

/-- The marker byte `PULSE_BYTE = b"\xAA"` (line 30). -/
def PULSE_BYTE : Nat := 0xAA

/-- One iteration of the relay loop for a returned status (lines 134-140):
a status other than `1` is discarded; an accepted status whose clock reading
is within `pulse_threshold` of `last_pulse` is discarded; otherwise
`last_pulse` is set to `now` and the marker byte is written.  Returns the new
`last_pulse` together with the bytes written this iteration. -/
def loopStep (pulse_threshold last_pulse : ℚ) (status : Int) (now : ℚ) :
    ℚ × List Event :=
  if status ≠ 1 then (last_pulse, [])
  else if now - last_pulse < pulse_threshold then (last_pulse, [])
  else (now, [Event.write PULSE_BYTE])

/-- The `while True` loop of lines 133-140, run over a finite trace of
wait-primitive outcomes, starting from a given `last_pulse`.  Produces the
events emitted in order and the way the loop ended. -/
def loop (pulse_threshold : ℚ) : ℚ → List LoopInput → List Event × RunExit
  | _, [] => ([], RunExit.pending)
  | _, LoopInput.interrupt :: _ => ([], RunExit.interrupted)
  | _, LoopInput.err m :: _ => ([], RunExit.errored m)
  | last_pulse, LoopInput.sig status now :: rest =>
    let st := loopStep pulse_threshold last_pulse status now
    let r := loop pulse_threshold st.1 rest
    (st.2 ++ r.1, r.2)

/-- The warm-up loop `for _ in range(warmup): vsync_func()` (lines 129-130):
each of the first `warmup` calls is consumed with its status ignored, no
event is emitted and no clock is read.  An interrupt or error raised by one
of these calls ends the `try` body. -/
def warmupRun : Nat → List LoopInput → List LoopInput ⊕ RunExit
  | 0, rest => Sum.inl rest
  | _ + 1, [] => Sum.inr RunExit.pending
  | n + 1, LoopInput.sig _ _ :: rest => warmupRun n rest
  | _ + 1, LoopInput.interrupt :: _ => Sum.inr RunExit.interrupted
  | _ + 1, LoopInput.err m :: _ => Sum.inr (RunExit.errored m)

/-- The whole `try` body (lines 128-140): the warm-up discard followed by the
relay loop with `last_pulse` initialised to the sentinel `0.0` (line 132). -/
def relayBody (pulse_threshold : ℚ) (warmup : Nat) (trace : List LoopInput) :
    List Event × RunExit :=
  match warmupRun warmup trace with
  | Sum.inl rest => loop pulse_threshold 0 rest
  | Sum.inr ex => ([], ex)

/-- How the whole relay phase ends: `done 0` is `main` returning 0,
`crash m` an exception propagating out of `main`, `pending` a loop still
running (its trace exhausted). -/
inductive RunOutcome where
  | done (code : Nat)
  | crash (msg : String)
  | pending
  deriving DecidableEq, Repr

/-- Lines 128-145: the `try` body wrapped in
`except KeyboardInterrupt: LOGGER.info(...)` and `finally: ser.close()`, then
`return 0`.  An interrupt yields the informational log line, the close, and
return value 0; any other exception runs the close and propagates; a pending
loop has not yet reached the `finally`. -/
def relayRun (pulse_threshold : ℚ) (warmup : Nat) (trace : List LoopInput) :
    List Event × RunOutcome :=
  match relayBody pulse_threshold warmup trace with
  | (evs, RunExit.interrupted) =>
    (evs ++ [Event.logInfo "Exiting on user request", Event.closeSerial],
      RunOutcome.done 0)
  | (evs, RunExit.errored m) => (evs ++ [Event.closeSerial], RunOutcome.crash m)
  | (evs, RunExit.pending) => (evs, RunOutcome.pending)

/-- The bytes written to the serial port, extracted from an event list in
order. -/
def writesOf (evs : List Event) : List Nat :=
  evs.filterMap fun e =>
    match e with
    | Event.write b => some b
    | _ => none

/-- The number of accepted, debounced edges in a trace, starting from a given
`last_pulse`: a returned status `1` whose clock reading is at least
`pulse_threshold` after the last accepted one counts and advances
`last_pulse`; everything else is discarded; the count stops where the loop
stops. -/
def acceptedCount (pulse_threshold : ℚ) : ℚ → List LoopInput → Nat
  | _, [] => 0
  | _, LoopInput.interrupt :: _ => 0
  | _, LoopInput.err _ :: _ => 0
  | last_pulse, LoopInput.sig status now :: rest =>
    if status = 1 then
      if now - last_pulse < pulse_threshold then
        acceptedCount pulse_threshold last_pulse rest
      else
        1 + acceptedCount pulse_threshold now rest
    else
      acceptedCount pulse_threshold last_pulse rest

/-- The number of accepted, debounced edges in a whole relay run, warm-up
included. -/
def relayAcceptedCount (pulse_threshold : ℚ) (warmup : Nat)
    (trace : List LoopInput) : Nat :=
  match warmupRun warmup trace with
  | Sum.inl rest => acceptedCount pulse_threshold 0 rest
  | Sum.inr _ => 0

/-! ## Theorems -/

/-- Claim C1: in the relay loop (after warm-up), when the wait primitive
returns ACCEPT (status 1) and the elapsed time since the last accepted pulse
is strictly below `pulse_threshold`, the trigger is discarded — no byte is
written and `last_pulse` is unchanged, the run continuing exactly as if the
trigger had not occurred; when the elapsed time is at least the threshold,
`last_pulse` is set to the current clock reading and exactly one marker byte
is written. -/
theorem debounce_law (t last_pulse now : ℚ) (rest : List LoopInput) :
    (now - last_pulse < t →
      loop t last_pulse (LoopInput.sig 1 now :: rest) = loop t last_pulse rest) ∧
    (t ≤ now - last_pulse →
      loop t last_pulse (LoopInput.sig 1 now :: rest) =
        (Event.write PULSE_BYTE :: (loop t now rest).1, (loop t now rest).2)) := by
  constructor
  · intro h
    simp [loop, loopStep, if_pos h]
  · intro h
    simp [loop, loopStep, if_neg (not_lt.mpr h)]

/-- Witness for `debounce_law` at concrete inputs: threshold `1/2000`,
last accepted pulse at clock `2`; a second accept at `2 + 1/4000` is
discarded, one at `3` is accepted and writes one marker byte. -/
theorem debounce_law_witness :
    loop (1 / 2000) 2 [LoopInput.sig 1 (2 + 1 / 4000)] = loop (1 / 2000) 2 [] ∧
    loop (1 / 2000) 2 [LoopInput.sig 1 3] =
      (Event.write PULSE_BYTE :: (loop (1 / 2000) 3 []).1, (loop (1 / 2000) 3 []).2) :=
  ⟨(debounce_law (1 / 2000) 2 (2 + 1 / 4000) []).1 (by norm_num),
   (debounce_law (1 / 2000) 2 3 []).2 (by norm_num)⟩

/-- When the first `N` trace items are plain returns of the wait primitive,
the warm-up loop consumes exactly those `N` items, whatever their statuses,
and hands the rest of the trace to the relay loop. -/
theorem warmupRun_all_sig (N : Nat) (trace : List LoopInput)
    (hlen : N ≤ trace.length)
    (hsig : ∀ i ∈ trace.take N, i.isSig = true) :
    warmupRun N trace = Sum.inl (trace.drop N) := by
  induction N generalizing trace with
  | zero => simp [warmupRun]
  | succ n ih =>
    cases trace with
    | nil => simp at hlen
    | cons a rest =>
      cases a with
      | sig s q =>
        simpa [warmupRun] using
          ih rest (by simpa using hlen)
            (fun i hi => hsig i (by simpa using List.mem_cons_of_mem _ hi))
      | interrupt =>
        have h := hsig LoopInput.interrupt (by simp)
        simp [LoopInput.isSig] at h
      | err m =>
        have h := hsig (LoopInput.err m) (by simp)
        simp [LoopInput.isSig] at h

/-- Claim C2: with `warmup = N`, the first `N` invocations of the wait
primitive are discarded unconditionally — whatever their returned statuses,
with no debounce filtering — producing no event (in particular no written
byte) and leaving the loop to start from the sentinel `last_pulse = 0`:
the whole run behaves exactly like the relay loop on the trace with the
first `N` items removed. -/
theorem warmup_law (t : ℚ) (N : Nat) (trace : List LoopInput)
    (hlen : N ≤ trace.length)
    (hsig : ∀ i ∈ trace.take N, i.isSig = true) :
    relayBody t N trace = loop t 0 (trace.drop N) := by
  simp [relayBody, warmupRun_all_sig N trace hlen hsig]

/-- Witness for `warmup_law`: two warm-up discards — an ACCEPT and a
non-ACCEPT — leave a run equal to the loop on the remaining trace. -/
theorem warmup_law_witness :
    relayBody (1 / 2000) 2
        [LoopInput.sig 1 1, LoopInput.sig 0 2, LoopInput.sig 1 3] =
      loop (1 / 2000) 0 [LoopInput.sig 1 3] := by
  have h := warmup_law (1 / 2000) 2
      [LoopInput.sig 1 1, LoopInput.sig 0 2, LoopInput.sig 1 3]
      (by decide) (by decide)
  simpa using h

/-- Claim C3, counterexample: the command line supplies `--baudrate 0` and the
config file supplies `baudrate = 5`, yet the merged configuration selects
neither — the `or` fall-through at line 114 replaces the selected (falsy)
command-line value `0` with the built-in default `921600`.  This refutes the
unconditional precedence claim. -/
theorem precedence_falsy_cex :
    mergedBaudrate (some (PyVal.pnum 0)) [("baudrate", some (PyVal.pnum 5))] =
      PyVal.pnum 921600 ∧
    PyVal.pnum (921600 : ℚ) ≠ PyVal.pnum 0 ∧ PyVal.pnum (921600 : ℚ) ≠ PyVal.pnum 5 := by
  refine ⟨rfl, by decide, by decide⟩

/-- Claim C3 (amended): option resolution itself selects the command-line
value whenever one is supplied, the file value when the command-line one is
absent and the key is present, and fails for a required field absent from
both; however, for the defaulted fields the final merge then replaces a falsy
(zero or empty) selected value with the built-in default, so the selected
value survives into the merged configuration exactly when it is truthy. -/
theorem precedence_law_amended (v d : PyVal) (config : Config) (key : String)
    (required : Bool) (w : Option PyVal) :
    (resolve_option (some v) config key required = Except.ok (some v)) ∧
    (config.lookup key = some w →
      resolve_option none config key required = Except.ok w) ∧
    (config.lookup key = none →
      resolve_option none config key true = Except.error (requiredMsg key)) ∧
    (truthy (some v) = true → pyOr (some v) d = v) ∧
    (truthy (some v) = false → pyOr (some v) d = d) := by
  refine ⟨rfl, fun h => ?_, fun h => ?_, fun h => ?_, fun h => ?_⟩
  · simp [resolve_option, h]
  · simp [resolve_option, h]
  · simp [pyOr, h]
  · simp [pyOr, h]

/-- Witness for `precedence_law_amended` at concrete inputs: a truthy
command-line value `7` wins over the file value `5` and survives the merge; an
absent command-line value selects the file value; `port` absent from both
sources fails; a falsy selected value `0` is replaced by the default. -/
theorem precedence_law_amended_witness :
    resolve_option (some (PyVal.pnum 7)) [("baudrate", some (PyVal.pnum 5))]
        "baudrate" false = Except.ok (some (PyVal.pnum 7)) ∧
    resolve_option none [("baudrate", some (PyVal.pnum 5))] "baudrate" false =
      Except.ok (some (PyVal.pnum 5)) ∧
    resolve_option none [] "port" true = Except.error (requiredMsg "port") ∧
    pyOr (some (PyVal.pnum 7)) (PyVal.pnum 921600) = PyVal.pnum 7 ∧
    pyOr (some (PyVal.pnum 0)) (PyVal.pnum 921600) = PyVal.pnum 921600 := by
  have h1 := precedence_law_amended (PyVal.pnum 7) (PyVal.pnum 921600)
      [("baudrate", some (PyVal.pnum 5))] "baudrate" false (some (PyVal.pnum 5))
  have h2 := precedence_law_amended (PyVal.pnum 0) (PyVal.pnum 921600)
      [] "port" true none
  exact ⟨h1.1, h1.2.1 (by decide), h2.2.2.1 (by decide), h1.2.2.2.1 (by decide),
    h2.2.2.2.2 (by decide)⟩

/-- Claim C4: when neither the command line nor the config file supplies
`port` (resp. `dll`), startup ends in the usage error carrying the message
that names the missing field, implying exit code 2 (non-zero), and the empty
event list shows that no serial-port open and no native-library load was
attempted. -/
theorem missing_required_usage_error (args : Args) (config : Config) (w : World)
    (p : Option PyVal) :
    (args.port = none → config.lookup "port" = none →
      mainStartup args config w = ([], StartOutcome.usageError (requiredMsg "port")) ∧
      startExitCode (StartOutcome.usageError (requiredMsg "port")) = some 2) ∧
    (args.dll = none → config.lookup "dll" = none →
      resolve_option (args.port.map PyVal.pstr) config "port" true = Except.ok p →
      mainStartup args config w = ([], StartOutcome.usageError (requiredMsg "dll")) ∧
      startExitCode (StartOutcome.usageError (requiredMsg "dll")) = some 2) := by
  constructor
  · intro hport hcfg
    refine ⟨?_, rfl⟩
    simp [mainStartup, resolve_option, hport, hcfg]
  · intro hdll hcfg hp
    refine ⟨?_, rfl⟩
    simp only [mainStartup]
    rw [hp]
    simp [resolve_option, hdll, hcfg]

/-- Witness for `missing_required_usage_error`: an empty command line with an
empty config file fails naming `port`; with the config file supplying only
`port`, it fails naming `dll`. -/
theorem missing_required_usage_error_witness :
    mainStartup Args.empty [] ⟨none, none, none⟩ =
      ([], StartOutcome.usageError (requiredMsg "port")) ∧
    mainStartup Args.empty [("port", some (PyVal.pstr "COM5"))] ⟨none, none, none⟩ =
      ([], StartOutcome.usageError (requiredMsg "dll")) := by
  have h1 := missing_required_usage_error Args.empty [] ⟨none, none, none⟩ none
  have h2 := missing_required_usage_error Args.empty
      [("port", some (PyVal.pstr "COM5"))] ⟨none, none, none⟩
      (some (PyVal.pstr "COM5"))
  exact ⟨(h1.1 rfl rfl).1, (h2.2 rfl rfl rfl).1⟩

/-- Claim C5: a config-file value for `baudrate`, `pulse_threshold` or
`warmup` that is falsy (zero, or an empty string), with no command-line
override, is not used: the merge falls through to the built-in defaults
`921600`, `1/2000` (= 0.0005) and `0` respectively. -/
theorem falsy_config_default (config : Config) (v : Option PyVal) :
    (config.lookup "baudrate" = some v → truthy v = false →
      mergedBaudrate none config = PyVal.pnum 921600) ∧
    (config.lookup "pulse_threshold" = some v → truthy v = false →
      mergedPulseThreshold none config = PyVal.pnum (1 / 2000)) ∧
    (config.lookup "warmup" = some v → truthy v = false →
      mergedWarmup none config = PyVal.pnum 0) := by
  refine ⟨fun h hf => ?_, fun h hf => ?_, fun h hf => ?_⟩ <;>
    simp [mergedBaudrate, mergedPulseThreshold, mergedWarmup, resolvedOrNone,
      resolve_option, h, pyOr] <;>
    cases v with
    | none => rfl
    | some u => simp [hf]

/-- Witness for `falsy_config_default`: a config file explicitly setting all
three fields to `0` yields the three built-in defaults. -/
theorem falsy_config_default_witness :
    mergedBaudrate none
        [("baudrate", some (PyVal.pnum 0)), ("pulse_threshold", some (PyVal.pnum 0)),
          ("warmup", some (PyVal.pnum 0))] = PyVal.pnum 921600 ∧
    mergedPulseThreshold none
        [("baudrate", some (PyVal.pnum 0)), ("pulse_threshold", some (PyVal.pnum 0)),
          ("warmup", some (PyVal.pnum 0))] = PyVal.pnum (1 / 2000) ∧
    mergedWarmup none
        [("baudrate", some (PyVal.pnum 0)), ("pulse_threshold", some (PyVal.pnum 0)),
          ("warmup", some (PyVal.pnum 0))] = PyVal.pnum 0 := by
  have h := falsy_config_default
      [("baudrate", some (PyVal.pnum 0)), ("pulse_threshold", some (PyVal.pnum 0)),
        ("warmup", some (PyVal.pnum 0))] (some (PyVal.pnum 0))
  exact ⟨h.1 (by decide) (by decide), h.2.1 (by decide) (by decide),
    h.2.2 (by decide) (by decide)⟩

/-- Claim C6, counterexample: warm-up (three discards) completes and the wait
primitive returns ACCEPT for the first time with `last_pulse` still at the
sentinel `0.0`; with `pulse_threshold = 1` and the clock reading `1/4`, the
debounce test `now - 0.0 < threshold` holds, so the first accepted signal is
discarded and no marker byte is written — the sentinel behaves as clock time
zero, not as "no prior pulse". -/
theorem first_accept_sentinel_cex :
    relayBody 1 3
        [LoopInput.sig 1 (1 / 100), LoopInput.sig 1 (2 / 100),
          LoopInput.sig 1 (3 / 100), LoopInput.sig 1 (1 / 4)] =
      ([], RunExit.pending) ∧ (1 : ℚ) ≤ 1 := by
  refine ⟨?_, le_refl 1⟩
  have hw : warmupRun 3
      [LoopInput.sig 1 (1 / 100), LoopInput.sig 1 (2 / 100),
        LoopInput.sig 1 (3 / 100), LoopInput.sig 1 (1 / 4)] =
      Sum.inl [LoopInput.sig 1 (1 / 4)] := rfl
  simp only [relayBody, hw]
  norm_num [loop, loopStep]

/-- Claim C6 (amended): after warm-up completes, the first ACCEPT is evaluated
against the debounce filter with `last_pulse` at the sentinel `0.0`, and
produces exactly one written marker byte provided the clock reading at that
accept is at least `pulse_threshold` (since the sentinel is the clock's zero,
the elapsed time the filter sees is the raw clock reading); the run then
continues with `last_pulse` equal to that reading. -/
theorem first_accept_after_warmup (t now : ℚ) (N : Nat)
    (pre rest : List LoopInput)
    (hlen : pre.length = N) (hsig : ∀ i ∈ pre, i.isSig = true) (hth : t ≤ now) :
    relayBody t N (pre ++ LoopInput.sig 1 now :: rest) =
      (Event.write PULSE_BYTE :: (loop t now rest).1, (loop t now rest).2) := by
  have hw : warmupRun N (pre ++ LoopInput.sig 1 now :: rest) =
      Sum.inl (LoopInput.sig 1 now :: rest) := by
    have htake : (pre ++ LoopInput.sig 1 now :: rest).take N = pre := by
      rw [← hlen]
      exact List.take_left pre _
    have hdrop : (pre ++ LoopInput.sig 1 now :: rest).drop N =
        LoopInput.sig 1 now :: rest := by
      rw [← hlen]
      exact List.drop_left pre _
    have := warmupRun_all_sig N (pre ++ LoopInput.sig 1 now :: rest)
        (by simp [← hlen]) (by rw [htake]; exact hsig)
    rw [this, hdrop]
  have hstep : now - 0 < t → False := fun h => absurd hth (by simpa using not_le.mpr h)
  simp only [relayBody, hw]
  simp [loop, loopStep, if_neg (not_lt.mpr (by simpa using hth))]

/-- Witness for `first_accept_after_warmup`: `warmup = 3`, four ACCEPT
returns; the first three are discarded, the fourth (clock `5`, threshold
`1/2000`) writes exactly one marker byte. -/
theorem first_accept_after_warmup_witness :
    relayBody (1 / 2000) 3
        [LoopInput.sig 1 1, LoopInput.sig 0 2, LoopInput.sig 1 3,
          LoopInput.sig 1 5] =
      ([Event.write PULSE_BYTE], RunExit.pending) := by
  have h := first_accept_after_warmup (1 / 2000) 5 3
      [LoopInput.sig 1 1, LoopInput.sig 0 2, LoopInput.sig 1 3] []
      rfl (by decide) (by norm_num)
  simpa [loop] using h

/-- Claim C7: an operational interrupt (`KeyboardInterrupt`) raised during the
relay phase is treated as graceful shutdown — the run's events end with the
informational log line and the serial close, and `main` returns 0; and on the
other exit path from the loop (a propagating exception) the serial connection
is closed as well. -/
theorem interrupt_graceful_shutdown (t : ℚ) (N : Nat) (trace : List LoopInput)
    (m : String) :
    ((relayBody t N trace).2 = RunExit.interrupted →
      relayRun t N trace =
        ((relayBody t N trace).1 ++
          [Event.logInfo "Exiting on user request", Event.closeSerial],
          RunOutcome.done 0)) ∧
    ((relayBody t N trace).2 = RunExit.errored m →
      relayRun t N trace =
        ((relayBody t N trace).1 ++ [Event.closeSerial], RunOutcome.crash m) ∧
      Event.closeSerial ∈ (relayRun t N trace).1) := by
  rcases hb : relayBody t N trace with ⟨evs, ex⟩
  constructor
  · intro hex
    simp only at hex
    subst hex
    simp [relayRun, hb]
  · intro hex
    simp only at hex
    subst hex
    simp [relayRun, hb]

/-- Witness for `interrupt_graceful_shutdown`: an interrupt as the first loop
input yields the log line, the close and return value 0; an exception yields
a close before the crash propagates. -/
theorem interrupt_graceful_shutdown_witness :
    relayRun (1 / 2000) 0 [LoopInput.interrupt] =
      ([Event.logInfo "Exiting on user request", Event.closeSerial],
        RunOutcome.done 0) ∧
    Event.closeSerial ∈ (relayRun (1 / 2000) 0 [LoopInput.err "write failed"]).1 := by
  have h1 := (interrupt_graceful_shutdown (1 / 2000) 0 [LoopInput.interrupt] "").1 rfl
  have h2 := (interrupt_graceful_shutdown (1 / 2000) 0 [LoopInput.err "write failed"]
      "write failed").2 rfl
  exact ⟨by simpa using h1, h2.2⟩

/-- The bytes written by the relay loop from any `last_pulse` are exactly one
`PULSE_BYTE` per accepted, debounced edge, in order. -/
theorem loop_writes (t : ℚ) (trace : List LoopInput) :
    ∀ last_pulse : ℚ,
      writesOf (loop t last_pulse trace).1 =
        List.replicate (acceptedCount t last_pulse trace) PULSE_BYTE := by
  induction trace with
  | nil => intro last_pulse; simp [loop, acceptedCount, writesOf]
  | cons a rest ih =>
    intro last_pulse
    cases a with
    | interrupt => simp [loop, acceptedCount, writesOf]
    | err m => simp [loop, acceptedCount, writesOf]
    | sig status now =>
      by_cases h1 : status = 1
      · subst h1
        by_cases h2 : now - last_pulse < t
        · have hi := ih last_pulse
          simp only [writesOf] at hi
          simp [loop, loopStep, acceptedCount, if_pos h2, writesOf, hi]
        · have hi := ih now
          simp only [writesOf] at hi
          simp [loop, loopStep, acceptedCount, if_neg h2, writesOf, hi,
            Nat.add_comm 1 (acceptedCount t now rest), List.replicate_succ]
      · have hi := ih last_pulse
        simp only [writesOf] at hi
        simp [loop, loopStep, acceptedCount, h1, writesOf, hi]

/-- Claim C8: in every run of the relay phase — warm-up, loop and shutdown
handling included — the data written to the serial transport is exactly one
marker byte `0xAA` per accepted, debounced edge, and nothing else: the
sequence of written bytes is a replication of `PULSE_BYTE`. -/
theorem wire_only_pulse_byte (t : ℚ) (N : Nat) (trace : List LoopInput) :
    writesOf (relayRun t N trace).1 =
      List.replicate (relayAcceptedCount t N trace) PULSE_BYTE := by
  have hbody : writesOf (relayBody t N trace).1 =
      List.replicate (relayAcceptedCount t N trace) PULSE_BYTE := by
    simp only [relayBody, relayAcceptedCount]
    rcases hw : warmupRun N trace with rest | ex
    · exact loop_writes t rest 0
    · simp [writesOf]
  rcases hb : relayBody t N trace with ⟨evs, ex⟩
  rw [hb] at hbody
  cases ex with
  | pending => simpa [relayRun, hb] using hbody
  | interrupted =>
    simp only [relayRun, hb]
    simpa [writesOf, List.filterMap_append] using hbody
  | errored m =>
    simp only [relayRun, hb]
    simpa [writesOf, List.filterMap_append] using hbody

/-- Claim C9, counterexample: with a valid command line (`--port COM5
--dll vs.dll`) and a DLL load that fails with underlying cause `boom`, the
surfaced error is exactly the underlying cause — `_create_vsync_waiter` wraps
nothing — and it does not name the library path `vs.dll`. -/
theorem dll_error_unnamed_cex :
    (mainStartup ⟨some "COM5", some "vs.dll", none, none, none⟩ []
        ⟨none, some "boom", none⟩).2 = StartOutcome.crash "boom" ∧
    ¬ List.IsInfix "vs.dll".toList "boom".toList :=
  ⟨rfl, by decide⟩

/-- Claim C9 (amended): a failed resource open is fatal with no retry in
every case; for the serial port the surfaced message is built by the program
and names both the port and the underlying cause, while for the native
library or its symbol the underlying exception propagates unchanged — the
program adds no message naming the library path, so the path is surfaced
only insofar as the underlying cause happens to mention it. -/
theorem resource_open_fatal (args : Args) (config : Config) (w : World)
    (p d c : String) (W : Int)
    (hp : args.port = some p) (hd : args.dll = some d)
    (hw : pyInt (mergedWarmup (args.warmup.map fun n => PyVal.pnum n) config) =
      some W) :
    (w.serialFail = some c →
      mainStartup args config w =
        ([Event.attemptOpenSerial],
          StartOutcome.fatalExit (serialFailMsg (some (PyVal.pstr p)) c)) ∧
      List.IsInfix p.toList (serialFailMsg (some (PyVal.pstr p)) c).toList ∧
      List.IsInfix c.toList (serialFailMsg (some (PyVal.pstr p)) c).toList) ∧
    (w.serialFail = none → w.dllLoadFail = some c →
      mainStartup args config w =
        ([Event.attemptOpenSerial, Event.attemptLoadDll], StartOutcome.crash c)) ∧
    (w.serialFail = none → w.dllLoadFail = none → w.symbolFail = some c →
      mainStartup args config w =
        ([Event.attemptOpenSerial, Event.attemptLoadDll], StartOutcome.crash c)) := by
  have hmsg : serialFailMsg (some (PyVal.pstr p)) c =
      "Failed to open serial port \x27" ++ p ++ "\x27: " ++ c := rfl
  refine ⟨fun hs => ⟨?_, ?_, ?_⟩, fun hs hdl => ?_, fun hs hdl hsym => ?_⟩
  · simp only [mainStartup, hp, hd, Option.map_some', resolve_option, hw, hs]
  · exact ⟨"Failed to open serial port \x27".toList, ("\x27: " ++ c).toList,
      by simp [hmsg, String.toList, String.data_append]⟩
  · exact ⟨("Failed to open serial port \x27" ++ p ++ "\x27: ").toList, [],
      by simp [hmsg, String.toList, String.data_append]⟩
  · simp only [mainStartup, hp, hd, Option.map_some', resolve_option, hw, hs, hdl]
  · simp only [mainStartup, hp, hd, Option.map_some', resolve_option, hw, hs, hdl,
      hsym]

/-- Witness for `resource_open_fatal` at concrete inputs: `--port COM5
--dll vs.dll` with, in turn, a failing serial open, a failing DLL load and a
failing symbol lookup. -/
theorem resource_open_fatal_witness :
    mainStartup ⟨some "COM5", some "vs.dll", none, none, none⟩ []
        ⟨some "cause1", none, none⟩ =
      ([Event.attemptOpenSerial],
        StartOutcome.fatalExit (serialFailMsg (some (PyVal.pstr "COM5")) "cause1")) ∧
    mainStartup ⟨some "COM5", some "vs.dll", none, none, none⟩ []
        ⟨none, some "cause2", none⟩ =
      ([Event.attemptOpenSerial, Event.attemptLoadDll], StartOutcome.crash "cause2") ∧
    mainStartup ⟨some "COM5", some "vs.dll", none, none, none⟩ []
        ⟨none, none, some "cause3"⟩ =
      ([Event.attemptOpenSerial, Event.attemptLoadDll], StartOutcome.crash "cause3") := by
  have h1 := resource_open_fatal ⟨some "COM5", some "vs.dll", none, none, none⟩
      [] ⟨some "cause1", none, none⟩ "COM5" "vs.dll" "cause1" 0 rfl rfl rfl
  have h2 := resource_open_fatal ⟨some "COM5", some "vs.dll", none, none, none⟩
      [] ⟨none, some "cause2", none⟩ "COM5" "vs.dll" "cause2" 0 rfl rfl rfl
  have h3 := resource_open_fatal ⟨some "COM5", some "vs.dll", none, none, none⟩
      [] ⟨none, none, some "cause3"⟩ "COM5" "vs.dll" "cause3" 0 rfl rfl rfl
  exact ⟨(h1.1 rfl).1, h2.2.1 rfl rfl, h3.2.2 rfl rfl rfl⟩

/-- Claim C10: a config file binding the required key `port` to `null` (with
no command-line value) makes `_resolve_option` return that null value instead
of raising the required-field error — the key is present, so the `required`
branch is never reached — and startup proceeds past resolution without any
configuration error: with cooperating resources it reaches the relay phase. -/
theorem null_required_not_config_error :
    resolve_option none [("port", none), ("dll", some (PyVal.pstr "vs.dll"))]
        "port" true = Except.ok none ∧
    (mainStartup Args.empty [("port", none), ("dll", some (PyVal.pstr "vs.dll"))]
        ⟨none, none, none⟩).2 =
      StartOutcome.started none (PyVal.pnum 921600) (PyVal.pnum (1 / 2000)) 0
        "vs.dll" ∧
    startExitCode (mainStartup Args.empty
        [("port", none), ("dll", some (PyVal.pstr "vs.dll"))]
        ⟨none, none, none⟩).2 = none :=
  ⟨rfl, rfl, rfl⟩

end VSync
